import Mathlib

/-
Verification development for the medusa-paypal payment-provider plugin.

The definitions below are a shallow embedding of the plugin's source:
- `formatAmount` and its binary64 helpers embed `PaypalService.formatAmount`
  (paypal-core), which computes `Math.round(amount * 100) / 100` on IEEE-754
  doubles and then `toFixed(2)`.  Doubles are modelled as exact fractions
  (`Frac`, an integer numerator over a positive integer denominator) together
  with `roundB64`, which rounds an exact fraction to the nearest binary64
  value (round-to-nearest, ties-to-even, 53-bit significand; overflow and
  subnormals are outside the range exercised here).
- `validatePayPalOrderId` / `validatePayPalCaptureId` embed the regex checks
  `^[A-Z0-9]{17}$` and `^[A-Z0-9]{17,20}$` of the module service.
- The order data model (`Order`, `PurchaseUnit`, `PaymentCollection`,
  `Authorization`, `Capture`) mirrors the PayPal SDK shapes used by the code;
  optional fields are `Option`, optional arrays are plain lists (an absent
  array and an empty array are observationally equal under `?.[0]`).
- `captureOrder` embeds `PaypalService.captureOrder`; `capturePayment`,
  `authorizePayment`, `getPaymentStatus`, `retrievePayment`, `refundPayment`,
  `constructWebhookEvent`, `getWebhookActionAndData` embed the corresponding
  methods of the module service.  Remote HTTP responses are supplied through
  the `Remote` record (the remote processor is the source of truth; each
  retrieval returns the corresponding field), and every outbound call is
  recorded in a trace of `RemoteCall`s so that claims about which remote
  calls happen can be stated.
- JavaScript truthiness on strings/numbers (empty string and 0 are falsy) is
  modelled by `truthyStr` / `truthyNum`; `a || b` on strings is `jsStringOr`.
-/

/-! ## Exact fractions and the binary64 model (for `formatAmount`) -/

/-- An exact fraction: integer numerator over a (by construction positive)
integer denominator.  No gcd normalization is performed, so all operations
reduce inside the kernel. -/
structure Frac where
  num : ℤ
  den : ℤ
deriving DecidableEq

/-- Floor of a fraction (denominator positive by construction). -/
def Frac.floor (q : Frac) : ℤ := q.num.fdiv q.den

/-- Multiplication of fractions. -/
def Frac.mul (a b : Frac) : Frac := ⟨a.num * b.num, a.den * b.den⟩

/-- Fuel-driven binary search for the floor of the base-2 logarithm of a
positive fraction: halve or double until the value lies in `[1, 2)`. -/
def floorLog2Go : ℕ → ℤ → ℤ → ℤ → ℤ
  | 0, _, _, acc => acc
  | fuel + 1, num, den, acc =>
    if num < den then floorLog2Go fuel (num * 2) den (acc - 1)
    else if 2 * den ≤ num then floorLog2Go fuel num (den * 2) (acc + 1)
    else acc

/-- Floor of the base-2 logarithm of `num / den` for positive inputs
(correct throughout the binary64 exponent range). -/
def floorLog2 (num den : ℤ) : ℤ := floorLog2Go 1200 num den 0

/-- Round a fraction to the nearest integer, ties to the even integer
(the IEEE-754 default rounding applied to a scaled significand). -/
def roundHalfEvenF (q : Frac) : ℤ :=
  let f := q.floor
  let r := q.num - f * q.den
  if 2 * r < q.den then f
  else if q.den < 2 * r then f + 1
  else if f % 2 = 0 then f else f + 1

/-- Round a fraction to the nearest integer, ties toward positive infinity:
the rounding of JavaScript `Math.round` and of the integer selection in
`Number.prototype.toFixed`. -/
def jsRoundF (q : Frac) : ℤ :=
  let f := q.floor
  let r := q.num - f * q.den
  if 2 * r < q.den then f else f + 1

/-- Round a positive fraction to the nearest binary64 value: scale into a
53-bit significand by the power of two given by `floorLog2`, round the
significand to the nearest integer ties-to-even, and scale back. -/
def roundB64Pos (q : Frac) : Frac :=
  let e : ℤ := floorLog2 q.num q.den - 52
  let m : Frac :=
    if 0 ≤ e then ⟨q.num, q.den * 2 ^ e.toNat⟩ else ⟨q.num * 2 ^ (-e).toNat, q.den⟩
  let m64 := roundHalfEvenF m
  if 0 ≤ e then ⟨m64 * 2 ^ e.toNat, 1⟩ else ⟨m64, 2 ^ (-e).toNat⟩

/-- Round an exact fraction to the nearest binary64 value. -/
def roundB64 (q : Frac) : Frac :=
  if q.num = 0 then ⟨0, 1⟩
  else if q.num < 0 then
    let p := roundB64Pos ⟨-q.num, q.den⟩
    ⟨-p.num, p.den⟩
  else roundB64Pos q

/-- The binary64 value denoted by the decimal literal `num / den` in the
JavaScript source (literals are rounded to the nearest double). -/
def jsNumber (num den : ℤ) : Frac := roundB64 ⟨num, den⟩

/-- Render a non-negative number of cents as a decimal string with exactly
two digits after the decimal point (the digit-emission step of
`toFixed(2)`). -/
def renderCents (n : ℕ) : String :=
  let ip := n / 100
  let fp := n % 100
  Nat.repr ip ++ "." ++ (if fp < 10 then "0" ++ Nat.repr fp else Nat.repr fp)

/-- ECMAScript `Number.prototype.toFixed(2)` on a binary64 value `x` in the
non-exponential range: choose the integer `n` minimizing the distance of
`n / 100` to `x`, ties to the larger `n`, and print it with two decimals. -/
def toFixed2 (x : Frac) : String :=
  let n := jsRoundF (x.mul ⟨100, 1⟩)
  if n < 0 then "-" ++ renderCents (-n).toNat else renderCents n.toNat

/-- Embedding of `PaypalService.formatAmount`:
`Math.round(amount * 100) / 100` followed by `.toFixed(2)`, with each
floating-point operation (`amount * 100`, the division by 100) rounding its
exact result to the nearest binary64 value. -/
def formatAmount (amount : Frac) : String :=
  let p := roundB64 (amount.mul ⟨100, 1⟩)
  let r := jsRoundF p
  let d := roundB64 ⟨r, 100⟩
  toFixed2 d

/-! ## Identifier validation (module service / security utils) -/

/-- One character of the PayPal id character class `[A-Z0-9]`. -/
def isPayPalIdChar (c : Char) : Bool :=
  (65 ≤ c.toNat ∧ c.toNat ≤ 90) ∨ (48 ≤ c.toNat ∧ c.toNat ≤ 57)

/-- Embedding of `validatePayPalOrderId`: the regex `^[A-Z0-9]{17}$`
(the empty string and non-strings are rejected by the length test). -/
def validatePayPalOrderId (s : String) : Bool :=
  s.length = 17 ∧ s.toList.all isPayPalIdChar

/-- Embedding of `validatePayPalCaptureId`: the regex `^[A-Z0-9]{17,20}$`. -/
def validatePayPalCaptureId (s : String) : Bool :=
  (17 ≤ s.length ∧ s.length ≤ 20) ∧ s.toList.all isPayPalIdChar

/-! ## JavaScript truthiness helpers -/

/-- Truthiness of an optional string: `undefined` and `""` are falsy. -/
def truthyStr : Option String → Bool
  | none => false
  | some s => ¬ s.isEmpty

/-- Truthiness of an optional number: `undefined` and `0` are falsy. -/
def truthyNum : Option Frac → Bool
  | none => false
  | some q => q.num ≠ 0

/-- JavaScript `a || b` where `a` is an optional string and `b` a string. -/
def jsStringOr (a : Option String) (b : String) : String :=
  match a with
  | some s => if s.isEmpty then b else s
  | none => b

/-- JavaScript `a || b` on two optional strings. -/
def jsOrOptStr (a b : Option String) : Option String :=
  match a with
  | some s => if s.isEmpty then b else some s
  | none => b

/-! ## PayPal order data model (SDK shapes used by the plugin) -/

/-- An authorization record nested in a purchase unit (SDK `Authorization`):
fields the code reads are `id` and `status`, both optional. -/
structure Authorization where
  id : Option String
  status : Option String
deriving DecidableEq

/-- A capture record nested in a purchase unit (SDK `Capture`). -/
structure Capture where
  id : Option String
  status : Option String
  createTime : Option String
deriving DecidableEq

/-- The `payments` object of a purchase unit; an absent `authorizations` or
`captures` array is modelled as the empty list. -/
structure PaymentCollection where
  authorizations : List Authorization
  captures : List Capture
deriving DecidableEq

/-- A purchase unit (SDK `PurchaseUnit`); only `payments` is read here. -/
structure PurchaseUnit where
  payments : Option PaymentCollection
deriving DecidableEq

/-- A PayPal order (SDK `Order`): the fields the plugin reads. -/
structure Order where
  id : Option String
  status : Option String
  intent : Option String
  purchaseUnits : List PurchaseUnit
deriving DecidableEq

/-- `order.purchaseUnits?.[0]?.payments?.authorizations?.[0]`. -/
def firstAuthorization (o : Order) : Option Authorization :=
  (o.purchaseUnits.head?.bind PurchaseUnit.payments).bind fun p => p.authorizations.head?

/-- `order.purchaseUnits?.[0]?.payments?.captures?.[0]`. -/
def firstCapture (o : Order) : Option Capture :=
  (o.purchaseUnits.head?.bind PurchaseUnit.payments).bind fun p => p.captures.head?

/-- The guard `authorization && authorization.id && authorization.status ===
"CREATED"` of `PaypalService.captureOrder`, returning the authorization id
when it passes (an absent or empty id is falsy and fails the guard). -/
def authCreatedId (o : Order) : Option String :=
  match firstAuthorization o with
  | some a =>
    match a.id with
    | some aid => if ¬ aid.isEmpty ∧ a.status = some "CREATED" then some aid else none
    | none => none
  | none => none

/-- The guard `authorizationData && authorizationData.status === "CREATED"`
of the module service (object truthiness only; no id check). -/
def hasCreatedAuthorization (o : Order) : Bool :=
  match firstAuthorization o with
  | some a => a.status = some "CREATED"
  | none => false

/-- The guard `captureData?.status === "COMPLETED"`. -/
def hasCompletedCapture (o : Order) : Bool :=
  match firstCapture o with
  | some c => c.status = some "COMPLETED"
  | none => false

/-! ## Remote calls and remote state -/

/-- The outbound REST calls the plugin can make; retrieval is the only
non-mutating one. -/
inductive RemoteCall
  | retrieveOrder (id : String)
  | captureAuthorization (authId : String)
  | captureOrderDirect (id : String)
  | authorizeOrder (id : String)
  | refundCapturedPayment (captureId : String)
deriving DecidableEq

/-- Whether a remote call mutates remote state. -/
def RemoteCall.isMutating : RemoteCall → Bool
  | .retrieveOrder _ => false
  | _ => true

/-- The remote processor's responses (the processor is the source of truth):
`order` answers the first retrieval, `orderAfterCapture` answers the
re-retrieval performed after capturing an authorization, `captureResponse`
answers a direct order capture, `authorizeResponse` answers an order
authorization. -/
structure Remote where
  order : Order
  orderAfterCapture : Order
  captureResponse : Order
  authorizeResponse : Order
deriving DecidableEq

/-! ## PaypalService.captureOrder (paypal-core) -/

/-- The error thrown at the end of `PaypalService.captureOrder`. -/
inductive CaptureOrderError
  | cannotCapture (id : String) (status : Option String) (intent : Option String)
deriving DecidableEq

/-- Embedding of `PaypalService.captureOrder`.  The branches, in source
order: (1) an authorization with a truthy id and status `"CREATED"` is
captured and the order re-retrieved; (2) a first capture with status
`"COMPLETED"` means the order is already captured and is returned as-is;
(3) a `"CAPTURE"`-intent order in status `"APPROVED"` is captured directly;
(4) otherwise an error is thrown.  The second component is the trace of
outbound calls, starting with the order retrieval the method performs. -/
def captureOrder (id : String) (r : Remote) :
    Except CaptureOrderError Order × List RemoteCall :=
  let o := r.order
  match authCreatedId o with
  | some aid =>
    (.ok r.orderAfterCapture,
      [.retrieveOrder id, .captureAuthorization aid, .retrieveOrder id])
  | none =>
    if hasCompletedCapture o then
      (.ok o, [.retrieveOrder id])
    else if o.intent = some "CAPTURE" ∧ o.status = some "APPROVED" then
      (.ok r.captureResponse, [.retrieveOrder id, .captureOrderDirect id])
    else
      (.error (.cannotCapture id o.status o.intent), [.retrieveOrder id])

/-! ## Module service: shared types -/

/-- Medusa `PaymentSessionStatus` values used by the provider. -/
inductive SessionStatus
  | authorized
  | captured
  | pending
  | canceled
  | error
  | requiresMore
deriving DecidableEq

/-- Medusa error categories used by the provider (`MedusaError.Types`). -/
inductive MedusaErrType
  | invalidData
  | notFound
deriving DecidableEq

/-- A thrown `MedusaError`: a category plus a human-readable message.  Error
messages are kept as fixed literals; dynamic interpolated parts of the source
messages are omitted. -/
structure MErr where
  type : MedusaErrType
  message : String
deriving DecidableEq

/-- The provider-specific data blob carried by an inbound call
(`input.data`): the fields the provider reads. -/
structure InputData where
  id : Option String
  amount : Option Frac
  currencyCode : Option String
  purchaseUnits : List PurchaseUnit
deriving DecidableEq

/-- An inbound provider call: its optional data blob. -/
structure ProviderInput where
  data : Option InputData
deriving DecidableEq

/-! ## PaypalModuleService.capturePayment -/

/-- The result object of a successful `capturePayment`: the spread of the
inbound data blob and of the (possibly re-retrieved) order, plus the session
status and the `captured_at` timestamp. -/
structure CapturePaymentOutput where
  inputData : InputData
  order : Order
  status : SessionStatus
  capturedAt : String
deriving DecidableEq

/-- Embedding of `PaypalModuleService.capturePayment`.  `now` is the value of
`new Date().toISOString()` at the call.  Branches in source order: data and
order-id presence checks, order-id format validation, retrieval, the
already-`"COMPLETED"` short-circuit, the `"CREATED"`-authorization branch and
the `"APPROVED"` branch (both delegating to `captureOrder`), otherwise an
invalid-state error.  The surrounding `catch` rethrows every failure as a
`MedusaError` of category invalid-data, so the error category is uniformly
`invalidData`. -/
def capturePayment (input : ProviderInput) (r : Remote) (now : String) :
    Except MErr CapturePaymentOutput × List RemoteCall :=
  match input.data with
  | none => (.error ⟨.invalidData, "Payment data is required"⟩, [])
  | some d =>
    match d.id with
    | none =>
      (.error ⟨.invalidData, "PayPal order ID is required to capture payment"⟩, [])
    | some oid =>
      if oid.isEmpty then
        (.error ⟨.invalidData, "PayPal order ID is required to capture payment"⟩, [])
      else if ¬ validatePayPalOrderId oid then
        (.error ⟨.invalidData, "Invalid PayPal order ID format"⟩, [])
      else
        let o := r.order
        if o.status = some "COMPLETED" then
          (.ok ⟨d, o, .captured, jsStringOr ((firstCapture o).bind Capture.createTime) now⟩,
            [.retrieveOrder oid])
        else if hasCreatedAuthorization o then
          match captureOrder oid r with
          | (.ok co, calls) =>
            (.ok ⟨d, co, .captured,
                jsStringOr ((firstCapture co).bind Capture.createTime) now⟩,
              .retrieveOrder oid :: calls)
          | (.error _, calls) =>
            (.error ⟨.invalidData, "Failed to capture PayPal payment"⟩,
              .retrieveOrder oid :: calls)
        else if o.status = some "APPROVED" then
          match captureOrder oid r with
          | (.ok co, calls) =>
            (.ok ⟨d, co, .captured,
                jsStringOr ((firstCapture co).bind Capture.createTime) now⟩,
              .retrieveOrder oid :: calls)
          | (.error _, calls) =>
            (.error ⟨.invalidData, "Failed to capture PayPal payment"⟩,
              .retrieveOrder oid :: calls)
        else
          (.error ⟨.invalidData, "cannot capture"⟩, [.retrieveOrder oid])

/-! ## PaypalModuleService.authorizePayment -/

/-- The result of a successful `authorizePayment`: the order data returned to
the caller plus the session status. -/
structure AuthorizeOutput where
  data : Order
  status : SessionStatus
deriving DecidableEq

/-- Embedding of `PaypalModuleService.authorizePayment`.  After the presence
checks (order id, amount and currency are JS-truthy) the latest order is
retrieved.  If its status is `"APPROVED"` the authorize endpoint is called:
a resulting first authorization with status `"CREATED"` or `"CAPTURED"`
reports `authorized`, as does a resulting capture record; otherwise the
status is `error`.  For any other order status, in source order: a first
authorization with status `"CREATED"` reports `authorized`; order status
`"COMPLETED"` or a first capture with status `"COMPLETED"` reports
`captured`; order status `"CREATED"` reports `pending`; anything else is
`error`.  No identifier-format validation is performed. -/
def authorizePayment (input : ProviderInput) (r : Remote) :
    Except MErr AuthorizeOutput × List RemoteCall :=
  match input.data with
  | none => (.error ⟨.invalidData, "Payment data is required"⟩, [])
  | some d =>
    match d.id with
    | none =>
      (.error ⟨.invalidData,
        "PayPal order ID, Amount or Currency is missing, can not authorize order."⟩, [])
    | some oid =>
      if ¬ (¬ oid.isEmpty ∧ truthyNum d.amount ∧ truthyStr d.currencyCode) then
        (.error ⟨.invalidData,
          "PayPal order ID, Amount or Currency is missing, can not authorize order."⟩, [])
      else
        let o := r.order
        if o.status = some "APPROVED" then
          let ao := r.authorizeResponse
          let trace := [RemoteCall.retrieveOrder oid, RemoteCall.authorizeOrder oid]
          match firstAuthorization ao with
          | some na =>
            if na.status = some "CREATED" then (.ok ⟨ao, .authorized⟩, trace)
            else if na.status = some "CAPTURED" then (.ok ⟨ao, .authorized⟩, trace)
            else if (firstCapture ao).isSome then (.ok ⟨ao, .authorized⟩, trace)
            else (.ok ⟨ao, .error⟩, trace)
          | none =>
            if (firstCapture ao).isSome then (.ok ⟨ao, .authorized⟩, trace)
            else (.ok ⟨ao, .error⟩, trace)
        else if hasCreatedAuthorization o then
          (.ok ⟨o, .authorized⟩, [.retrieveOrder oid])
        else if o.status = some "COMPLETED" ∨ hasCompletedCapture o then
          (.ok ⟨o, .captured⟩, [.retrieveOrder oid])
        else if o.status = some "CREATED" then
          (.ok ⟨o, .pending⟩, [.retrieveOrder oid])
        else
          (.ok ⟨o, .error⟩, [.retrieveOrder oid])

/-! ## PaypalModuleService.getPaymentStatus / retrievePayment / refundPayment -/

/-- Embedding of `PaypalModuleService.getPaymentStatus`: presence and format
checks on the order id, retrieval, a not-found error when the retrieved
order has no truthy status, then the two-way mapping
`status === "COMPLETED" ? CAPTURED : AUTHORIZED`. -/
def getPaymentStatus (input : ProviderInput) (r : Remote) :
    Except MErr SessionStatus × List RemoteCall :=
  match input.data with
  | none => (.error ⟨.invalidData, "Payment data is required"⟩, [])
  | some d =>
    match d.id with
    | none =>
      (.error ⟨.invalidData, "PayPal order ID is required to get payment status"⟩, [])
    | some oid =>
      if oid.isEmpty then
        (.error ⟨.invalidData, "PayPal order ID is required to get payment status"⟩, [])
      else if ¬ validatePayPalOrderId oid then
        (.error ⟨.invalidData, "Invalid PayPal order ID format"⟩, [])
      else
        match r.order.status with
        | none => (.error ⟨.notFound, "PayPal order not found"⟩, [.retrieveOrder oid])
        | some s =>
          if s.isEmpty then
            (.error ⟨.notFound, "PayPal order not found"⟩, [.retrieveOrder oid])
          else
            (.ok (if s = "COMPLETED" then .captured else .authorized),
              [.retrieveOrder oid])

/-- Embedding of `PaypalModuleService.retrievePayment`: the inbound record's
`id` must be truthy and pass `validatePayPalOrderId` before the retrieval. -/
def retrievePayment (input : InputData) (r : Remote) :
    Except MErr Order × List RemoteCall :=
  match input.id with
  | none => (.error ⟨.invalidData, "Invalid PayPal order ID"⟩, [])
  | some oid =>
    if oid.isEmpty ∨ ¬ validatePayPalOrderId oid then
      (.error ⟨.invalidData, "Invalid PayPal order ID"⟩, [])
    else
      (.ok r.order, [.retrieveOrder oid])

/-- The capture ids collected by `refundPayment` from the inbound purchase
units: `purchaseUnits?.flatMap(item => item?.payments?.captures?.map(c =>
c.id)).filter(id => id !== undefined)` (absent capture arrays contribute
nothing; captures without an id are filtered out; empty-string ids are
kept). -/
def refundCaptureIds (d : InputData) : List String :=
  d.purchaseUnits.flatMap fun pu =>
    match pu.payments with
    | some p => p.captures.filterMap Capture.id
    | none => []

/-- The result of a successful `refundPayment`. -/
structure RefundOutput where
  orderId : String
  status : SessionStatus
  cancelledAt : String
deriving DecidableEq

/-- Embedding of `PaypalModuleService.refundPayment`: presence checks (data,
truthy order id, non-empty capture-id list), order-id format validation,
capture-id format validation, then one refund call per capture id.  The
surrounding `catch` turns every failure into an invalid-data error. -/
def refundPayment (input : ProviderInput) (now : String) :
    Except MErr RefundOutput × List RemoteCall :=
  match input.data with
  | none => (.error ⟨.invalidData, "Payment data is required"⟩, [])
  | some d =>
    let ids := refundCaptureIds d
    match d.id with
    | none => (.error ⟨.invalidData, "Failed to refund PayPal payment"⟩, [])
    | some oid =>
      if oid.isEmpty ∨ ids.isEmpty then
        (.error ⟨.invalidData, "Failed to refund PayPal payment"⟩, [])
      else if ¬ validatePayPalOrderId oid then
        (.error ⟨.invalidData, "Failed to refund PayPal payment"⟩, [])
      else if ¬ ids.all validatePayPalCaptureId then
        (.error ⟨.invalidData, "Failed to refund PayPal payment"⟩, [])
      else
        (.ok ⟨oid, .canceled, now⟩, ids.map RemoteCall.refundCapturedPayment)

/-! ## Webhook data model -/

/-- The `amount` object of a webhook resource; its `value` string is
abstracted to the numeric value `Number(value)` yields (the claims never
depend on the string form). -/
structure ResourceAmount where
  value : Frac
deriving DecidableEq

/-- The `resource` payload of a webhook event: the fields the mapper reads. -/
structure Resource where
  customId : Option String
  invoiceId : Option String
  amount : Option ResourceAmount
deriving DecidableEq

/-- A parsed webhook event body. -/
structure WebhookBody where
  eventType : Option String
  resource : Option Resource
deriving DecidableEq

/-- The raw webhook payload (`data.rawData`): either a raw string together
with its `JSON.parse` outcome (the JSON parser is treated as an oracle:
`none` means parsing throws), or an already-parsed object. -/
inductive RawBody
  | str (parsed : Option WebhookBody)
  | obj (body : WebhookBody)
deriving DecidableEq

/-- The parse step of `constructWebhookEvent`: strings go through
`JSON.parse`, objects are used as-is. -/
def parseRawBody : RawBody → Option WebhookBody
  | .str p => p
  | .obj b => some b

/-- Medusa `PaymentActions` values used by the webhook mapper. -/
inductive PaymentAction
  | authorized
  | successful
  | pending
  | failed
  | canceled
  | requiresMore
  | notSupported
deriving DecidableEq

/-- The `data` carried by a webhook action: session id and amount. -/
structure SessionData where
  sessionId : Option String
  amount : Frac
deriving DecidableEq

/-- The mapper's result: an action, with session data on recognized events. -/
structure WebhookActionResult where
  action : PaymentAction
  data : Option SessionData
deriving DecidableEq

/-! ## constructWebhookEvent and verifyWebhook -/

/-- The five transmission headers `constructWebhookEvent` requires. -/
def requiredHeaders : List String :=
  ["paypal-auth-algo", "paypal-cert-url", "paypal-transmission-id",
    "paypal-transmission-sig", "paypal-transmission-time"]

/-- Lookup of a header value in the inbound header record. -/
def lookupHeader (hs : List (String × String)) (k : String) : Option String :=
  (hs.find? fun p => p.1 = k).map Prod.snd

/-- The first required header whose value is absent or empty (the loop in
`constructWebhookEvent` throws on the first falsy header, in list order). -/
def firstMissingHeader (hs : List (String × String)) : Option String :=
  requiredHeaders.find? fun h => ¬ truthyStr (lookupHeader hs h)

/-- The errors `constructWebhookEvent` throws. -/
inductive ConstructError
  | missingHeader (name : String)
  | invalidPayloadFormat
deriving DecidableEq

/-- Embedding of `PaypalModuleService.constructWebhookEvent`: validate the
five required headers first, then parse the raw body, and return both. -/
def constructWebhookEvent (hs : List (String × String)) (raw : RawBody) :
    Except ConstructError (List (String × String) × WebhookBody) :=
  match firstMissingHeader hs with
  | some h => .error (.missingHeader h)
  | none =>
    match parseRawBody raw with
    | none => .error .invalidPayloadFormat
    | some b => .ok (hs, b)

/-- The outcome of the external verification endpoint: whether the HTTP call
succeeded (`response.ok`) and the `verification_status` field of its JSON
body.  The access-token exchange preceding the call is abstracted into the
same outcome (its failure behaves like a failed HTTP call). -/
structure VerifyResponse where
  ok : Bool
  verificationStatus : Option String
deriving DecidableEq

/-- The errors `PaypalService.verifyWebhook` throws. -/
inductive VerifyError
  | webhookIdNotSet
  | httpNotOk
  | verificationFailed
deriving DecidableEq

/-- Embedding of `PaypalService.verifyWebhook`: a falsy webhook id throws;
a non-ok HTTP response throws; a `verification_status` other than
`"SUCCESS"` throws; otherwise the body is returned. -/
def verifyWebhook (webhookId : Option String) (resp : VerifyResponse)
    (body : WebhookBody) : Except VerifyError WebhookBody :=
  if ¬ truthyStr webhookId then .error .webhookIdNotSet
  else if ¬ resp.ok then .error .httpNotOk
  else if resp.verificationStatus ≠ some "SUCCESS" then .error .verificationFailed
  else .ok body

/-! ## getWebhookActionAndData -/

/-- The event-type switch of `getWebhookActionAndData`: a static lookup from
the event-type string to a Medusa payment action, carrying the session id
(`resource?.custom_id || resource?.invoice_id`) and amount
(`resource?.amount?.value ? Number(...) : 0`); every unrecognized type falls
to the default `NOT_SUPPORTED` arm, which carries no data. -/
def mapWebhookEvent (b : WebhookBody) : WebhookActionResult :=
  let res := b.resource
  let sessionId := jsOrOptStr (res.bind Resource.customId) (res.bind Resource.invoiceId)
  let amount : Frac :=
    match (res.bind Resource.amount) with
    | some a => a.value
    | none => ⟨0, 1⟩
  let dat : Option SessionData := some ⟨sessionId, amount⟩
  match b.eventType with
  | some "PAYMENT.CAPTURE.COMPLETED" => ⟨.successful, dat⟩
  | some "PAYMENT.CAPTURE.PENDING" => ⟨.pending, dat⟩
  | some "PAYMENT.CAPTURE.DENIED" => ⟨.failed, dat⟩
  | some "PAYMENT.CAPTURE.FAILED" => ⟨.failed, dat⟩
  | some "PAYMENT.AUTHORIZATION.CREATED" => ⟨.authorized, dat⟩
  | some "PAYMENT.AUTHORIZATION.VOIDED" => ⟨.canceled, dat⟩
  | some "CHECKOUT.ORDER.APPROVED" => ⟨.requiresMore, dat⟩
  | some "CHECKOUT.PAYMENT-APPROVAL.REVERSED" => ⟨.failed, dat⟩
  | some "PAYMENT.CAPTURE.REFUNDED" => ⟨.successful, dat⟩
  | some "PAYMENT.REFUND.COMPLETED" => ⟨.successful, dat⟩
  | _ => ⟨.notSupported, none⟩

/-- Embedding of `PaypalModuleService.getWebhookActionAndData`: construct and
validate the event, verify the signature, then apply the event-type switch.
The enclosing `catch` turns every thrown error into the `FAILED` action with
no data, so the function never raises. -/
def getWebhookActionAndData (webhookId : Option String)
    (hs : List (String × String)) (raw : RawBody) (resp : VerifyResponse) :
    WebhookActionResult :=
  match constructWebhookEvent hs raw with
  | .error _ => ⟨.failed, none⟩
  | .ok (_, body) =>
    match verifyWebhook webhookId resp body with
    | .error _ => ⟨.failed, none⟩
    | .ok b => mapWebhookEvent b

/-! ## Helper lemmas -/

/-- The fractional part printed by `renderCents` always has exactly two
digits. -/
lemma fracPart_length (m : ℕ) (hm : m < 100) :
    (if m < 10 then "0" ++ Nat.repr m else Nat.repr m).length = 2 :=
  (by decide : ∀ m < 100, (if m < 10 then "0" ++ Nat.repr m else Nat.repr m).length = 2) m hm

/-- `renderCents` always produces a string of the form `whole ++ "." ++ frac`
with a two-character fractional part. -/
lemma renderCents_shape (n : ℕ) :
    ∃ whole frac, renderCents n = whole ++ "." ++ frac ∧ frac.length = 2 := by
  refine ⟨Nat.repr (n / 100),
    if n % 100 < 10 then "0" ++ Nat.repr (n % 100) else Nat.repr (n % 100), rfl, ?_⟩
  exact fracPart_length _ (Nat.mod_lt _ (by norm_num))

/-- `verifyWebhook` throws whenever the verification outcome is not an ok
HTTP response carrying an explicit `"SUCCESS"` status. -/
lemma verifyWebhook_error_of_not_success (webhookId : Option String)
    (resp : VerifyResponse) (body : WebhookBody)
    (h : ¬ (resp.ok = true ∧ resp.verificationStatus = some "SUCCESS")) :
    ∃ e, verifyWebhook webhookId resp body = .error e := by
  by_cases hw : truthyStr webhookId
  · by_cases hok : resp.ok
    · have hvs : resp.verificationStatus ≠ some "SUCCESS" := fun hc => h ⟨hok, hc⟩
      exact ⟨.verificationFailed, by simp [verifyWebhook, hw, hok, hvs]⟩
    · exact ⟨.httpNotOk, by simp [verifyWebhook, hw, hok]⟩
  · exact ⟨.webhookIdNotSet, by simp [verifyWebhook, hw]⟩

/-- `verifyWebhook` throws whenever the webhook id is falsy, the HTTP call
failed, or the verification status is anything other than `"SUCCESS"`. -/
lemma verifyWebhook_error_of_failure (webhookId : Option String)
    (resp : VerifyResponse) (body : WebhookBody)
    (h : truthyStr webhookId = false ∨ resp.ok = false ∨
      resp.verificationStatus ≠ some "SUCCESS") :
    ∃ e, verifyWebhook webhookId resp body = .error e := by
  by_cases hw : truthyStr webhookId
  · apply verifyWebhook_error_of_not_success
    rcases h with h | h | h
    · rw [hw] at h; cases h
    · intro hc; rw [hc.1] at h; cases h
    · exact fun hc => h hc.2
  · exact ⟨.webhookIdNotSet, by simp [verifyWebhook, hw]⟩

/-! ## Claim C8 -/

/-- Claim C8: the amount-formatting function always produces a string with
exactly two decimal places, and with nearest-cent rounding of the IEEE-754
double pipeline the input `19.005` yields exactly `"19.01"` and the input
`10` yields exactly `"10.00"`. -/
theorem formatAmount_two_decimals_and_examples :
    (∀ x : Frac, ∃ whole frac,
        formatAmount x = whole ++ "." ++ frac ∧ frac.length = 2) ∧
      formatAmount (jsNumber 19005 1000) = "19.01" ∧
      formatAmount (jsNumber 10 1) = "10.00" := by
  refine ⟨?_, by decide, by decide⟩
  intro x
  show ∃ whole frac, toFixed2 _ = whole ++ "." ++ frac ∧ frac.length = 2
  unfold toFixed2
  set n := jsRoundF ((roundB64 ⟨jsRoundF (roundB64 (x.mul ⟨100, 1⟩)), 100⟩).mul ⟨100, 1⟩)
    with hn
  by_cases hneg : n < 0
  · obtain ⟨w, f, hwf, hf⟩ := renderCents_shape (-n).toNat
    refine ⟨"-" ++ w, f, ?_, hf⟩
    rw [if_pos hneg, hwf, ← String.append_assoc, ← String.append_assoc]
  · obtain ⟨w, f, hwf, hf⟩ := renderCents_shape n.toNat
    refine ⟨w, f, ?_, hf⟩
    rw [if_neg hneg]
    exact hwf

/-! ## Claim C4 -/

/-- Claim C4: the webhook event switch at the concrete table rows.  The first
four rows behave as claimed (`PAYMENT.AUTHORIZATION.CREATED` is authorized,
`PAYMENT.CAPTURE.COMPLETED` is successful, `PAYMENT.CAPTURE.DENIED` is
failed, an unknown type is not-supported, with no error raised), but the
order-cancelled event `CHECKOUT.ORDER.CANCELLED` has no switch case and falls
to the default not-supported arm instead of the canceled action that the
repository's own upgrade log and webhook test expect. -/
theorem webhook_event_mapping_table :
    mapWebhookEvent ⟨some "PAYMENT.AUTHORIZATION.CREATED", none⟩ =
        ⟨.authorized, some ⟨none, ⟨0, 1⟩⟩⟩ ∧
      mapWebhookEvent ⟨some "PAYMENT.CAPTURE.COMPLETED", none⟩ =
        ⟨.successful, some ⟨none, ⟨0, 1⟩⟩⟩ ∧
      mapWebhookEvent ⟨some "PAYMENT.CAPTURE.DENIED", none⟩ =
        ⟨.failed, some ⟨none, ⟨0, 1⟩⟩⟩ ∧
      mapWebhookEvent ⟨some "UNKNOWN.EVENT.TYPE", none⟩ = ⟨.notSupported, none⟩ ∧
      mapWebhookEvent ⟨some "CHECKOUT.ORDER.CANCELLED", none⟩ =
        ⟨.notSupported, none⟩ := by
  exact ⟨rfl, rfl, rfl, rfl, rfl⟩

/-! ## Claim C1 -/

/-- Claim C1: for every retrieved order whose status is `"COMPLETED"`, the
capture operation reports the already-captured state and performs no
mutating remote call (its trace is the single order retrieval, which
precedes any capturing action), so repeated capture calls on a completed
order return the same completed state (for orders whose completed capture
carries a truthy `createTime`, the result does not even depend on the
wall-clock time). -/
theorem capturePayment_completed_idempotent
    (d : InputData) (oid : String) (r : Remote) (now now2 : String)
    (hid : d.id = some oid) (hne : oid.isEmpty = false)
    (hval : validatePayPalOrderId oid = true)
    (hst : r.order.status = some "COMPLETED") :
    (capturePayment ⟨some d⟩ r now).1 =
        .ok ⟨d, r.order, .captured,
          jsStringOr ((firstCapture r.order).bind Capture.createTime) now⟩ ∧
      (capturePayment ⟨some d⟩ r now).2 = [.retrieveOrder oid] ∧
      (∀ c ∈ (capturePayment ⟨some d⟩ r now).2, c.isMutating = false) ∧
      (truthyStr ((firstCapture r.order).bind Capture.createTime) = true →
        capturePayment ⟨some d⟩ r now2 = capturePayment ⟨some d⟩ r now) := by
  have hmain : ∀ t : String, capturePayment ⟨some d⟩ r t =
      (.ok ⟨d, r.order, .captured,
          jsStringOr ((firstCapture r.order).bind Capture.createTime) t⟩,
        [.retrieveOrder oid]) := by
    intro t
    simp [capturePayment, hid, hne, hval, hst]
  refine ⟨by rw [hmain], by rw [hmain], ?_, ?_⟩
  · rw [hmain]
    intro c hc
    simp only [List.mem_singleton] at hc
    subst hc
    rfl
  · intro ht
    rw [hmain, hmain]
    cases hcc : (firstCapture r.order).bind Capture.createTime with
    | none => rw [hcc] at ht; simp [truthyStr] at ht
    | some s =>
      rw [hcc] at ht
      simp only [truthyStr, decide_eq_true_eq] at ht
      simp [jsStringOr, ht]

/-- Witness for claim C1: a concrete completed order with a completed capture
is reported captured by a trace consisting of the single retrieval. -/
theorem capturePayment_completed_idempotent_witness :
    validatePayPalOrderId "5O190127TN364715T" = true ∧
      (capturePayment ⟨some ⟨some "5O190127TN364715T", none, none, []⟩⟩
          ⟨⟨some "5O190127TN364715T", some "COMPLETED", some "AUTHORIZE",
              [⟨some ⟨[], [⟨some "3C679366HH908993F", some "COMPLETED",
                some "2024-01-01T00:00:00Z"⟩]⟩⟩]⟩,
            ⟨none, none, none, []⟩, ⟨none, none, none, []⟩,
            ⟨none, none, none, []⟩⟩ "NOW").2 =
        [.retrieveOrder "5O190127TN364715T"] :=
  ⟨by decide,
    (capturePayment_completed_idempotent _ "5O190127TN364715T" _ "NOW" "NOW"
        rfl (by decide) (by decide) rfl).2.1⟩

/-! ## Claim C6 -/

/-- Claim C6: whenever any of the five required transmission headers is
absent (or empty, which JavaScript treats the same as absent), webhook event
construction fails with a missing-header error, and the error is the same
for every body — valid, invalid, or unparseable — because header validation
happens before the body is parsed. -/
theorem constructWebhookEvent_missing_header
    (hs : List (String × String)) (h : String)
    (hmem : h ∈ requiredHeaders) (habs : truthyStr (lookupHeader hs h) = false) :
    ∃ h2, h2 ∈ requiredHeaders ∧ truthyStr (lookupHeader hs h2) = false ∧
      ∀ raw : RawBody, constructWebhookEvent hs raw = .error (.missingHeader h2) := by
  have hsome : (firstMissingHeader hs).isSome := by
    unfold firstMissingHeader
    exact List.find?_isSome.2 ⟨h, hmem, by simp [habs]⟩
  obtain ⟨h2, hfind⟩ := Option.isSome_iff_exists.1 hsome
  refine ⟨h2, List.mem_of_find?_eq_some hfind, ?_, ?_⟩
  · have := List.find?_some hfind
    simpa using this
  · intro raw
    unfold constructWebhookEvent
    rw [hfind]

/-- Witness for claim C6: with an empty header record the construction of any
(parseable) body fails with a missing-header error. -/
theorem constructWebhookEvent_missing_header_witness :
    ("paypal-auth-algo" ∈ requiredHeaders ∧
        truthyStr (lookupHeader [] "paypal-auth-algo") = false) ∧
      ∃ h2, h2 ∈ requiredHeaders ∧ truthyStr (lookupHeader [] h2) = false ∧
        ∀ raw : RawBody, constructWebhookEvent [] raw = .error (.missingHeader h2) :=
  ⟨⟨by decide, by decide⟩,
    constructWebhookEvent_missing_header [] "paypal-auth-algo" (by decide) (by decide)⟩

/-! ## Claim C5 -/

/-- Claim C5: webhook processing fails closed on signature verification.
Whenever the verification outcome is not an ok HTTP response carrying the
explicit `"SUCCESS"` status, `verifyWebhook` throws for every body (the
signature-invalid outcome), and `getWebhookActionAndData` never applies the
event-type mapping: it returns the failed action with no data for every
header record and every raw body, whatever their event type. -/
theorem webhook_verification_fails_closed
    (webhookId : Option String) (resp : VerifyResponse)
    (h : ¬ (resp.ok = true ∧ resp.verificationStatus = some "SUCCESS")) :
    (∀ body, ∃ e, verifyWebhook webhookId resp body = .error e) ∧
      ∀ (hs : List (String × String)) (raw : RawBody),
        getWebhookActionAndData webhookId hs raw resp = ⟨.failed, none⟩ := by
  refine ⟨fun body => verifyWebhook_error_of_not_success webhookId resp body h, ?_⟩
  intro hs raw
  unfold getWebhookActionAndData
  cases hC : constructWebhookEvent hs raw with
  | error e => rfl
  | ok p =>
    obtain ⟨hs2, body⟩ := p
    obtain ⟨e, he⟩ := verifyWebhook_error_of_not_success webhookId resp body h
    simp [he]

/-- Witness for claim C5: a verification response whose status is
`"FAILURE"` yields the failed action with no data on a concrete payload. -/
theorem webhook_verification_fails_closed_witness :
    ¬ ((true : Bool) = true ∧ (some "FAILURE" : Option String) = some "SUCCESS") ∧
      getWebhookActionAndData (some "WEBHOOK1") [("paypal-auth-algo", "A")]
        (.obj ⟨some "PAYMENT.CAPTURE.COMPLETED", none⟩) ⟨true, some "FAILURE"⟩ =
        ⟨.failed, none⟩ :=
  ⟨by decide,
    (webhook_verification_fails_closed (some "WEBHOOK1") ⟨true, some "FAILURE"⟩
      (by decide)).2 [("paypal-auth-algo", "A")]
      (.obj ⟨some "PAYMENT.CAPTURE.COMPLETED", none⟩)⟩

/-! ## Claim C10 -/

/-- Claim C10: the webhook action-and-data operation never raises (it is a
total function of its inputs), and on every failure path — a missing
required header, an unparseable body, an unset webhook id, a failed
verification HTTP call, or a verification status other than `"SUCCESS"` —
it returns the failed action carrying no session data, the same action-level
outcome as a denied capture but with the data absent. -/
theorem getWebhookActionAndData_failure_paths
    (webhookId : Option String) (hs : List (String × String)) (raw : RawBody)
    (resp : VerifyResponse)
    (h : firstMissingHeader hs ≠ none ∨ parseRawBody raw = none ∨
        truthyStr webhookId = false ∨ resp.ok = false ∨
        resp.verificationStatus ≠ some "SUCCESS") :
    getWebhookActionAndData webhookId hs raw resp = ⟨.failed, none⟩ := by
  unfold getWebhookActionAndData
  have hVerify : (truthyStr webhookId = false ∨ resp.ok = false ∨
        resp.verificationStatus ≠ some "SUCCESS") →
      (match constructWebhookEvent hs raw with
        | .error _ => (⟨.failed, none⟩ : WebhookActionResult)
        | .ok (_, body) =>
          match verifyWebhook webhookId resp body with
          | .error _ => ⟨.failed, none⟩
          | .ok b => mapWebhookEvent b) = ⟨.failed, none⟩ := by
    intro hv
    cases hC : constructWebhookEvent hs raw with
    | error e => rfl
    | ok p =>
      obtain ⟨hs2, body⟩ := p
      obtain ⟨e, he⟩ := verifyWebhook_error_of_failure webhookId resp body hv
      simp [he]
  rcases h with h | h | h | h | h
  · cases hF : firstMissingHeader hs with
    | none => exact absurd hF h
    | some h2 => simp [constructWebhookEvent, hF]
  · cases hF : firstMissingHeader hs with
    | none => simp [constructWebhookEvent, hF, h]
    | some h2 => simp [constructWebhookEvent, hF]
  · exact hVerify (Or.inl h)
  · exact hVerify (Or.inr (Or.inl h))
  · exact hVerify (Or.inr (Or.inr h))

/-- Witness for claim C10: a payload with no headers at all produces the
failed action with no data. -/
theorem getWebhookActionAndData_failure_paths_witness :
    (firstMissingHeader [] ≠ none ∨
        parseRawBody (.obj ⟨some "PAYMENT.CAPTURE.COMPLETED", none⟩) = none ∨
        truthyStr (some "WEBHOOK1") = false ∨ (false : Bool) = false ∨
        (some "SUCCESS" : Option String) ≠ some "SUCCESS") ∧
      getWebhookActionAndData (some "WEBHOOK1") []
        (.obj ⟨some "PAYMENT.CAPTURE.COMPLETED", none⟩) ⟨false, some "SUCCESS"⟩ =
        ⟨.failed, none⟩ :=
  ⟨by decide,
    getWebhookActionAndData_failure_paths (some "WEBHOOK1") []
      (.obj ⟨some "PAYMENT.CAPTURE.COMPLETED", none⟩) ⟨false, some "SUCCESS"⟩
      (by decide)⟩

/-! ## Claim C9 -/

/-- Claim C9: the payment-status operation is a two-way mapping on the
retrieved order: it reports captured exactly when the order status is
`"COMPLETED"`, and authorized for every other (truthy) status, including
`"CREATED"` and `"VOIDED"`; no pending, canceled, or error session status
can be produced at this interface. -/
theorem getPaymentStatus_two_way
    (d : InputData) (oid : String) (r : Remote) (s : String)
    (hid : d.id = some oid) (hne : oid.isEmpty = false)
    (hval : validatePayPalOrderId oid = true)
    (hst : r.order.status = some s) (hsne : s.isEmpty = false) :
    (getPaymentStatus ⟨some d⟩ r).1 =
        .ok (if s = "COMPLETED" then .captured else .authorized) ∧
      ((getPaymentStatus ⟨some d⟩ r).1 = .ok .captured ↔ s = "COMPLETED") ∧
      ∀ st, (getPaymentStatus ⟨some d⟩ r).1 = .ok st →
        st = .captured ∨ st = .authorized := by
  have hmain : (getPaymentStatus ⟨some d⟩ r).1 =
      .ok (if s = "COMPLETED" then .captured else .authorized) := by
    simp [getPaymentStatus, hid, hne, hval, hst, hsne]
  refine ⟨hmain, ?_, ?_⟩
  · rw [hmain]
    by_cases hc : s = "COMPLETED"
    · simp [hc]
    · simp [hc]
  · intro st hst2
    rw [hmain] at hst2
    by_cases hc : s = "COMPLETED"
    · rw [if_pos hc] at hst2
      exact Or.inl (Except.ok.inj hst2).symm
    · rw [if_neg hc] at hst2
      exact Or.inr (Except.ok.inj hst2).symm

/-- Witness for claim C9: a concrete voided order is reported authorized. -/
theorem getPaymentStatus_two_way_witness :
    validatePayPalOrderId "5O190127TN364715T" = true ∧
      (getPaymentStatus ⟨some ⟨some "5O190127TN364715T", none, none, []⟩⟩
          ⟨⟨some "5O190127TN364715T", some "VOIDED", some "AUTHORIZE", []⟩,
            ⟨none, none, none, []⟩, ⟨none, none, none, []⟩,
            ⟨none, none, none, []⟩⟩).1 =
        .ok (if ("VOIDED" : String) = "COMPLETED" then .captured else .authorized) :=
  ⟨by decide,
    (getPaymentStatus_two_way _ "5O190127TN364715T" _ "VOIDED" rfl (by decide)
        (by decide) rfl (by decide)).1⟩

/-! ## Claim C2 -/

/-- Claim C2 (amended): for every order that carries an authorization with a
truthy id and status `"CREATED"`, a capture request takes the
authorization-capture path — capture that authorization, then re-retrieve
the order — and never invokes the direct order-capture call; and the direct
order-capture call is reached only when the order's intent is `"CAPTURE"`
and its status is `"APPROVED"`. -/
theorem captureOrder_paths (oid : String) (r : Remote) :
    (∀ aid, authCreatedId r.order = some aid →
        (captureOrder oid r).1 = .ok r.orderAfterCapture ∧
        (captureOrder oid r).2 =
          [.retrieveOrder oid, .captureAuthorization aid, .retrieveOrder oid] ∧
        ∀ i, RemoteCall.captureOrderDirect i ∉ (captureOrder oid r).2) ∧
      ∀ i, RemoteCall.captureOrderDirect i ∈ (captureOrder oid r).2 →
        r.order.intent = some "CAPTURE" ∧ r.order.status = some "APPROVED" := by
  constructor
  · intro aid h
    refine ⟨?_, ?_, ?_⟩ <;> simp [captureOrder, h]
  · intro i hi
    cases hA : authCreatedId r.order with
    | some aid => simp [captureOrder, hA] at hi
    | none =>
      by_cases hC : hasCompletedCapture r.order
      · simp [captureOrder, hA, hC] at hi
      · by_cases hcond : r.order.intent = some "CAPTURE" ∧ r.order.status = some "APPROVED"
        · exact hcond
        · simp [captureOrder, hA, hC, hcond] at hi

/-- Witness for claim C2: on a concrete order carrying an authorization with
a truthy id in `"CREATED"` state, the capture trace is the
authorization-capture path. -/
theorem captureOrder_paths_witness :
    authCreatedId (⟨some "5O190127TN364715T", some "APPROVED", some "AUTHORIZE",
        [⟨some ⟨[⟨some "2GG27944U9778231H", some "CREATED"⟩], []⟩⟩]⟩ : Order) =
        some "2GG27944U9778231H" ∧
      (captureOrder "5O190127TN364715T"
          ⟨⟨some "5O190127TN364715T", some "APPROVED", some "AUTHORIZE",
              [⟨some ⟨[⟨some "2GG27944U9778231H", some "CREATED"⟩], []⟩⟩]⟩,
            ⟨none, some "COMPLETED", none, []⟩, ⟨none, none, none, []⟩,
            ⟨none, none, none, []⟩⟩).2 =
        [.retrieveOrder "5O190127TN364715T",
          .captureAuthorization "2GG27944U9778231H",
          .retrieveOrder "5O190127TN364715T"] :=
  ⟨by decide,
    ((captureOrder_paths "5O190127TN364715T" _).1 "2GG27944U9778231H"
        (by decide)).2.1⟩

/-- Counterexample for claim C2 as stated: an order that carries an
authorization with status `"CREATED"` but no id (`authorization.id` is
falsy), with intent `"CAPTURE"` and status `"APPROVED"` and no capture
record, is captured through the direct order-capture call. -/
theorem captureOrder_direct_despite_created_auth :
    (∃ a, firstAuthorization (⟨some "5O190127TN364715T", some "APPROVED",
          some "CAPTURE", [⟨some ⟨[⟨none, some "CREATED"⟩], []⟩⟩]⟩ : Order) =
          some a ∧ a.status = some "CREATED") ∧
      RemoteCall.captureOrderDirect "5O190127TN364715T" ∈
        (captureOrder "5O190127TN364715T"
          ⟨⟨some "5O190127TN364715T", some "APPROVED", some "CAPTURE",
              [⟨some ⟨[⟨none, some "CREATED"⟩], []⟩⟩]⟩,
            ⟨none, none, none, []⟩, ⟨none, none, none, []⟩,
            ⟨none, none, none, []⟩⟩).2 := by
  exact ⟨⟨⟨none, some "CREATED"⟩, by decide, rfl⟩, by decide⟩

/-! ## Claim C3 -/

/-- Counterexample for claim C3 as stated: a retrieved order with status
`"COMPLETED"` that still carries an authorization in `"CREATED"` state is
reported authorized, not captured, because the existing-authorization check
precedes the completed check. -/
theorem authorizePayment_completed_with_created_auth :
    (authorizePayment
          ⟨some ⟨some "5O190127TN364715T", some ⟨10, 1⟩, some "USD", []⟩⟩
          ⟨⟨some "5O190127TN364715T", some "COMPLETED", some "AUTHORIZE",
              [⟨some ⟨[⟨some "2GG27944U9778231H", some "CREATED"⟩], []⟩⟩]⟩,
            ⟨none, none, none, []⟩, ⟨none, none, none, []⟩,
            ⟨none, none, none, []⟩⟩).1 =
        .ok ⟨⟨some "5O190127TN364715T", some "COMPLETED", some "AUTHORIZE",
            [⟨some ⟨[⟨some "2GG27944U9778231H", some "CREATED"⟩], []⟩⟩]⟩,
          .authorized⟩ ∧
      SessionStatus.authorized ≠ SessionStatus.captured := by
  exact ⟨rfl, by decide⟩

/-- Claim C3 (amended): the authorize operation maps the retrieved order to a
session status with the following precedence.  If the order status is
`"APPROVED"` the authorize endpoint is called, and a resulting authorization
status of `"CREATED"` or of `"CAPTURED"` (auto-capture) is reported
authorized.  Otherwise: an order still carrying an authorization in
`"CREATED"` state is reported authorized; next, order status `"COMPLETED"`
or a completed capture is reported captured; next, order status `"CREATED"`
is reported pending; any other status is the error state. -/
theorem authorizePayment_status_mapping
    (d : InputData) (oid : String) (r : Remote)
    (hid : d.id = some oid) (hne : oid.isEmpty = false)
    (ham : truthyNum d.amount = true) (hcur : truthyStr d.currencyCode = true) :
    (r.order.status = some "APPROVED" →
      (authorizePayment ⟨some d⟩ r).2 =
          [.retrieveOrder oid, .authorizeOrder oid] ∧
        ∀ na, firstAuthorization r.authorizeResponse = some na →
          (na.status = some "CREATED" →
            (authorizePayment ⟨some d⟩ r).1 =
              .ok ⟨r.authorizeResponse, .authorized⟩) ∧
          (na.status = some "CAPTURED" →
            (authorizePayment ⟨some d⟩ r).1 =
              .ok ⟨r.authorizeResponse, .authorized⟩)) ∧
      (r.order.status ≠ some "APPROVED" →
        (authorizePayment ⟨some d⟩ r).2 = [.retrieveOrder oid] ∧
          (hasCreatedAuthorization r.order = true →
            (authorizePayment ⟨some d⟩ r).1 = .ok ⟨r.order, .authorized⟩) ∧
          (hasCreatedAuthorization r.order = false →
            ((r.order.status = some "COMPLETED" ∨ hasCompletedCapture r.order = true) →
              (authorizePayment ⟨some d⟩ r).1 = .ok ⟨r.order, .captured⟩) ∧
            (r.order.status = some "CREATED" → hasCompletedCapture r.order = false →
              (authorizePayment ⟨some d⟩ r).1 = .ok ⟨r.order, .pending⟩) ∧
            (r.order.status ≠ some "COMPLETED" → r.order.status ≠ some "CREATED" →
              hasCompletedCapture r.order = false →
              (authorizePayment ⟨some d⟩ r).1 = .ok ⟨r.order, .error⟩))) := by
  constructor
  · intro hap
    constructor
    · cases hna : firstAuthorization r.authorizeResponse with
      | none =>
        by_cases hc : (firstCapture r.authorizeResponse).isSome <;>
          simp [authorizePayment, hid, hne, ham, hcur, hap, hna, hc]
      | some na =>
        by_cases h1 : na.status = some "CREATED"
        · simp [authorizePayment, hid, hne, ham, hcur, hap, hna, h1]
        · by_cases h2 : na.status = some "CAPTURED"
          · simp [authorizePayment, hid, hne, ham, hcur, hap, hna, h1, h2]
          · by_cases hc : (firstCapture r.authorizeResponse).isSome <;>
              simp [authorizePayment, hid, hne, ham, hcur, hap, hna, h1, h2, hc]
    · intro na hna
      constructor
      · intro h1
        simp [authorizePayment, hid, hne, ham, hcur, hap, hna, h1]
      · intro h2
        simp [authorizePayment, hid, hne, ham, hcur, hap, hna, h2]
  · intro hnap
    have hmain : authorizePayment ⟨some d⟩ r =
        (.ok ⟨r.order,
            if hasCreatedAuthorization r.order then .authorized
            else if r.order.status = some "COMPLETED" ∨ hasCompletedCapture r.order
              then .captured
            else if r.order.status = some "CREATED" then .pending
            else .error⟩,
          [.retrieveOrder oid]) := by
      by_cases h1 : hasCreatedAuthorization r.order
      · simp [authorizePayment, hid, hne, ham, hcur, hnap, h1]
      · by_cases h2c : r.order.status = some "COMPLETED"
        · simp [authorizePayment, hid, hne, ham, hcur, hnap, h1, h2c]
        · by_cases h2b : hasCompletedCapture r.order
          · simp [authorizePayment, hid, hne, ham, hcur, hnap, h1, h2c, h2b]
          · by_cases h3 : r.order.status = some "CREATED"
            · simp [authorizePayment, hid, hne, ham, hcur, hnap, h1, h2c, h2b, h3]
            · simp [authorizePayment, hid, hne, ham, hcur, hnap, h1, h2c, h2b, h3]
    refine ⟨by rw [hmain], ?_, ?_⟩
    · intro h1
      rw [hmain]
      simp [h1]
    · intro h1
      refine ⟨?_, ?_, ?_⟩
      · intro h2
        rw [hmain]
        rcases h2 with h2 | h2 <;> simp [h1, h2]
      · intro h3 h4
        rw [hmain]
        simp [h1, h3, h4]
      · intro h3 h4 h5
        rw [hmain]
        simp [h1, h3, h4, h5]

/-- Witness for the amended claim C3: a concrete order in `"CREATED"` status
with no authorization and no capture is reported pending. -/
theorem authorizePayment_status_mapping_witness :
    (authorizePayment
        ⟨some ⟨some "5O190127TN364715T", some ⟨10, 1⟩, some "USD", []⟩⟩
        ⟨⟨some "5O190127TN364715T", some "CREATED", some "AUTHORIZE", []⟩,
          ⟨none, none, none, []⟩, ⟨none, none, none, []⟩,
          ⟨none, none, none, []⟩⟩).1 =
      .ok ⟨⟨some "5O190127TN364715T", some "CREATED", some "AUTHORIZE", []⟩,
        .pending⟩ :=
  (((authorizePayment_status_mapping _ "5O190127TN364715T" _ rfl (by decide)
      (by decide) (by decide)).2 (by decide)).2.2 (by decide)).2.1 rfl (by decide)

/-! ## Claim C7 -/

/-- Counterexample for claim C7 as stated: the authorize operation performs
no identifier-format validation — with the invalid order id `"abc"` it still
issues the outbound order retrieval instead of failing with an invalid-input
error. -/
theorem authorizePayment_skips_id_validation :
    validatePayPalOrderId "abc" = false ∧
      RemoteCall.retrieveOrder "abc" ∈
        (authorizePayment ⟨some ⟨some "abc", some ⟨10, 1⟩, some "USD", []⟩⟩
          ⟨⟨some "abc", some "CREATED", some "AUTHORIZE", []⟩,
            ⟨none, none, none, []⟩, ⟨none, none, none, []⟩,
            ⟨none, none, none, []⟩⟩).2 := by
  exact ⟨by decide, by decide⟩

/-- Claim C7 (amended): the capture, status, retrieve and refund operations
validate every order/capture identifier taken from the inbound payload
against the fixed shape (17 uppercase alphanumerics for orders, 17–20 for
captures) and fail with an invalid-input error, making no remote call, when
an identifier does not match; the authorize operation, by contrast, only
checks that the identifier is present. -/
theorem id_format_validated_before_remote_calls :
    (∀ (d : InputData) (oid : String) (r : Remote) (now : String),
        d.id = some oid → oid.isEmpty = false → validatePayPalOrderId oid = false →
        ((∃ m, (capturePayment ⟨some d⟩ r now).1 = .error ⟨.invalidData, m⟩) ∧
            (capturePayment ⟨some d⟩ r now).2 = []) ∧
          ((∃ m, (getPaymentStatus ⟨some d⟩ r).1 = .error ⟨.invalidData, m⟩) ∧
            (getPaymentStatus ⟨some d⟩ r).2 = []) ∧
          ((∃ m, (retrievePayment d r).1 = .error ⟨.invalidData, m⟩) ∧
            (retrievePayment d r).2 = []) ∧
          ((∃ m, (refundPayment ⟨some d⟩ now).1 = .error ⟨.invalidData, m⟩) ∧
            (refundPayment ⟨some d⟩ now).2 = [])) ∧
      ∀ (d : InputData) (oid now cid : String),
        d.id = some oid → cid ∈ refundCaptureIds d →
        validatePayPalCaptureId cid = false →
        (∃ m, (refundPayment ⟨some d⟩ now).1 = .error ⟨.invalidData, m⟩) ∧
          (refundPayment ⟨some d⟩ now).2 = [] := by
  constructor
  · intro d oid r now hid hne hval
    have hcap : capturePayment ⟨some d⟩ r now =
        (.error ⟨.invalidData, "Invalid PayPal order ID format"⟩, []) := by
      simp [capturePayment, hid, hne, hval]
    have hgps : getPaymentStatus ⟨some d⟩ r =
        (.error ⟨.invalidData, "Invalid PayPal order ID format"⟩, []) := by
      simp [getPaymentStatus, hid, hne, hval]
    have hret : retrievePayment d r =
        (.error ⟨.invalidData, "Invalid PayPal order ID"⟩, []) := by
      simp [retrievePayment, hid, hval]
    have href : refundPayment ⟨some d⟩ now =
        (.error ⟨.invalidData, "Failed to refund PayPal payment"⟩, []) := by
      by_cases hids : (refundCaptureIds d).isEmpty <;>
        simp [refundPayment, hid, hne, hval, hids]
    exact ⟨⟨⟨_, by rw [hcap]⟩, by rw [hcap]⟩, ⟨⟨_, by rw [hgps]⟩, by rw [hgps]⟩,
      ⟨⟨_, by rw [hret]⟩, by rw [hret]⟩, ⟨⟨_, by rw [href]⟩, by rw [href]⟩⟩
  · intro d oid now cid hid hmem hcv
    have hne2 : (refundCaptureIds d).isEmpty = false := by
      cases h2 : refundCaptureIds d with
      | nil => rw [h2] at hmem; cases hmem
      | cons a l => rfl
    have hall : (refundCaptureIds d).all validatePayPalCaptureId = false := by
      rw [Bool.eq_false_iff]
      intro hall
      have := List.all_eq_true.1 hall cid hmem
      rw [hcv] at this
      cases this
    have href : refundPayment ⟨some d⟩ now =
        (.error ⟨.invalidData, "Failed to refund PayPal payment"⟩, []) := by
      by_cases hoe : oid.isEmpty
      · simp [refundPayment, hid, hoe]
      · by_cases hov : validatePayPalOrderId oid
        · simp [refundPayment, hid, hoe, hne2, hov, hall]
        · simp [refundPayment, hid, hoe, hne2, hov]
    exact ⟨⟨_, by rw [href]⟩, by rw [href]⟩

/-- Witness for the amended claim C7: with the malformed order id `"BADID"`
the capture operation makes no remote call. -/
theorem id_format_validated_before_remote_calls_witness :
    validatePayPalOrderId "BADID" = false ∧
      (capturePayment ⟨some ⟨some "BADID", none, none, []⟩⟩
          ⟨⟨none, none, none, []⟩, ⟨none, none, none, []⟩, ⟨none, none, none, []⟩,
            ⟨none, none, none, []⟩⟩ "NOW").2 = [] :=
  ⟨by decide,
    ((id_format_validated_before_remote_calls.1 ⟨some "BADID", none, none, []⟩
        "BADID" _ "NOW" rfl (by decide) (by decide)).1).2⟩
